import Mathlib

/-
Verification of the dynamic method-invocation and identifier-resolution layer
of the actual-mcp server (a protocol-translation shim over the Actual Budget
API).  The definitions below are a shallow embedding of the TypeScript
sources: src/index.ts (session state), src/smart-budget.ts (smart loader),
src/id-resolver.ts (identifier resolver), src/tools/call-method.ts (dynamic
invoker), src/manifest.ts (method manifest) and the rule-DSL formatter.
External, asynchronous API calls of @actual-app/api are modelled by an
oracle environment; every embedded operation returns, besides its value or
error, the final session state and the list of API calls it performed.
-/

namespace ActualMcp

/-- JavaScript runtime values, as far as the embedded code inspects them.
Numbers are modelled as integers (the sources only ever stringify them and
the relevant data carries integral amounts). -/
inductive JValue where
  | null
  | undef
  | bool (b : Bool)
  | num (n : Int)
  | str (s : String)
  | arr (elems : List JValue)
  | obj (fields : List (String × JValue))
deriving Repr

/-- JS truthiness of an optional string: undefined/null and `""` are falsy. -/
def truthyOptStr : Option String → Bool
  | none => false
  | some s => s != ""

/-- `s.includes(c)` for a single-character search string (all the quoting
checks of the sources use single characters). -/
def strContainsChar (s : String) (c : Char) : Bool :=
  s.toList.contains c

/-- `.replace(/"/g, '\\"')`: escape every double quote. -/
def escapeQuotes (s : String) : String :=
  String.join (s.toList.map (fun c => if c == '"' then "\\\"" else String.singleton c))

/-- `s.endsWith(suffix)`. -/
def strEndsWith (s suffix : String) : Bool :=
  List.isSuffixOf suffix.toList s.toList

/-- `x ?? y` triggers only on null/undefined. -/
def nullish : JValue → Bool
  | JValue.null => true
  | JValue.undef => true
  | _ => false

/-- The module-level session state of src/index.ts:
`initialized`, `budgetLoaded`, `currentBudgetId`. -/
structure SessionState where
  initialized : Bool
  budgetLoaded : Bool
  currentBudgetId : Option String
deriving Repr, DecidableEq

/-- Budget entries returned by `api.getBudgets()` (src/smart-budget.ts):
`id` is present only when the budget is locally available, `groupId` is the
remote sync handle. -/
structure BudgetEntity where
  id : Option String
  name : String
  groupId : Option String
deriving Repr, DecidableEq

/-- Result of `smartLoadBudget`. -/
structure SmartLoadResult where
  id : String
  name : String
deriving Repr, DecidableEq

/-- One call into the external @actual-app/api surface. -/
inductive ApiCall where
  | initCall
  | getBudgets
  | downloadBudget (syncId : String)
  | loadBudget (budgetId : String)
  | apiGetter (name : String)
  | invoke (method : String) (args : List JValue)
deriving Repr

/-- Oracle for the external API and the process environment variables.
`budgets` is what `api.getBudgets()` returns before any download;
`budgetsAfterDownload g` is what it returns after `api.downloadBudget g`.
The `...Err` fields make each call fail with the given message, modelling a
rejected promise. `invokeResult` is the outcome of a generic dynamic call
`api[method](...args)`, and `hasApiFn` is `typeof api[method] === "function"`. -/
structure ApiEnv where
  serverURL : Option String
  actualBudgetId : Option String
  initErr : Option String
  getBudgetsErr : Option String
  budgets : List BudgetEntity
  budgetsAfterDownload : String → List BudgetEntity
  downloadErr : String → Option String
  loadErr : String → Option String
  hasApiFn : String → Bool
  invokeResult : String → List JValue → Except String JValue

/-- Does a budget entry match the requested id / name / groupId
(src/smart-budget.ts, the `find` over `budgets`)? -/
def budgetMatches (input : String) (b : BudgetEntity) : Bool :=
  b.id == some input || b.name == input || b.groupId == some input

/-- The "Available: ..." listing of the not-found error in smartLoadBudget:
each budget shown as `"name" (id: x)`, the id part only when truthy. -/
def availableList (budgets : List BudgetEntity) : String :=
  String.intercalate ", "
    (budgets.map fun b =>
      "\"" ++ b.name ++ "\"" ++
        (if truthyOptStr b.id then " (id: " ++ b.id.getD "" ++ ")" else ""))

/-- src/smart-budget.ts `smartLoadBudget`: list budgets, find the match by
id/name/groupId, download first when the match is remote-only, then load by
the local id.  Returns the outcome together with the API calls performed. -/
def smartLoadBudget (env : ApiEnv) (budgetIdOrName : String) :
    Except String SmartLoadResult × List ApiCall :=
  match env.getBudgetsErr with
  | some e => (Except.error e, [ApiCall.getBudgets])
  | none =>
    match env.budgets.find? (budgetMatches budgetIdOrName) with
    | none =>
        (Except.error ("Budget \"" ++ budgetIdOrName ++ "\" not found. Available: " ++
            availableList env.budgets),
          [ApiCall.getBudgets])
    | some m =>
      if truthyOptStr m.groupId && !(truthyOptStr m.id) then
        let g := m.groupId.getD ""
        match env.downloadErr g with
        | some e => (Except.error e, [ApiCall.getBudgets, ApiCall.downloadBudget g])
        | none =>
          let updatedBudgets := env.budgetsAfterDownload g
          match updatedBudgets.find? (fun b => b.groupId == some g && truthyOptStr b.id) with
          | none =>
              (Except.error ("Failed to download budget \"" ++ budgetIdOrName ++ "\". Try again."),
                [ApiCall.getBudgets, ApiCall.downloadBudget g, ApiCall.getBudgets])
          | some d =>
            let did := d.id.getD ""
            match env.loadErr did with
            | some e =>
                (Except.error e,
                  [ApiCall.getBudgets, ApiCall.downloadBudget g, ApiCall.getBudgets,
                    ApiCall.loadBudget did])
            | none =>
                (Except.ok ⟨did, d.name⟩,
                  [ApiCall.getBudgets, ApiCall.downloadBudget g, ApiCall.getBudgets,
                    ApiCall.loadBudget did])
      else
        if !(truthyOptStr m.id) then
          (Except.error ("Budget \"" ++ budgetIdOrName ++ "\" has no local ID to load."),
            [ApiCall.getBudgets])
        else
          let lid := m.id.getD ""
          match env.loadErr lid with
          | some e => (Except.error e, [ApiCall.getBudgets, ApiCall.loadBudget lid])
          | none => (Except.ok ⟨lid, m.name⟩, [ApiCall.getBudgets, ApiCall.loadBudget lid])

/-- src/index.ts `ensureInitialized`: no-op when already initialized,
otherwise require ACTUAL_SERVER_URL, run `api.init`, flip the flag, and
auto-load the budget named by ACTUAL_BUDGET_ID when that variable is set.
Note the flag is set before the auto-load, so a failing auto-load leaves
`initialized = true` behind (the thrown error still propagates).  The
filesystem bookkeeping (data-dir creation) touches no session state and is
not modelled. -/
def ensureInitialized (env : ApiEnv) (s : SessionState) :
    Except String Unit × SessionState × List ApiCall :=
  if s.initialized then (Except.ok (), s, [])
  else if !(truthyOptStr env.serverURL) then
    (Except.error "ACTUAL_SERVER_URL environment variable is required", s, [])
  else
    match env.initErr with
    | some e => (Except.error e, s, [ApiCall.initCall])
    | none =>
      let s1 : SessionState := { s with initialized := true }
      if truthyOptStr env.actualBudgetId then
        let bid := env.actualBudgetId.getD ""
        match env.loadErr bid with
        | some e => (Except.error e, s1, [ApiCall.initCall, ApiCall.loadBudget bid])
        | none =>
            (Except.ok (),
              { s1 with budgetLoaded := true, currentBudgetId := some bid },
              [ApiCall.initCall, ApiCall.loadBudget bid])
      else (Except.ok (), s1, [ApiCall.initCall])

/-- src/index.ts `setBudgetLoaded`: both fields mutate together;
`currentBudgetId` becomes `budgetId ?? null` when loading, null otherwise. -/
def setBudgetLoaded (loaded : Bool) (budgetId : Option String) (s : SessionState) :
    SessionState :=
  { s with budgetLoaded := loaded, currentBudgetId := if loaded then budgetId else none }

/-- src/index.ts `ensureBudgetLoaded` (the session guard): initialize, then
reuse the current budget when no identifier is given, error when none is
loaded, no-op when the identifier equals the current id, and otherwise run
the smart loader and record its result. -/
def ensureBudgetLoaded (env : ApiEnv) (budgetIdOrName : Option String) (s : SessionState) :
    Except String Unit × SessionState × List ApiCall :=
  match ensureInitialized env s with
  | (Except.error e, s1, tr) => (Except.error e, s1, tr)
  | (Except.ok _, s1, tr) =>
    if !(truthyOptStr budgetIdOrName) then
      if s1.budgetLoaded then (Except.ok (), s1, tr)
      else (Except.error "No budget loaded. Provide budget_id or call loadBudget first.", s1, tr)
    else
      let v := budgetIdOrName.getD ""
      if s1.currentBudgetId == some v then (Except.ok (), s1, tr)
      else
        match smartLoadBudget env v with
        | (Except.error e, tr2) => (Except.error e, s1, tr ++ tr2)
        | (Except.ok r, tr2) =>
            (Except.ok (), setBudgetLoaded true (some r.id) s1, tr ++ tr2)

/-- One declared parameter of a manifest method (src/manifest.ts
`MethodParam`).  The free-text `type` and `description` fields are never
read by the invocation logic and are omitted from the embedding. -/
structure MethodParam where
  name : String
  required : Bool
deriving Repr, DecidableEq

/-- One manifest entry (src/manifest.ts `MethodManifest`); `params` keeps
the declared order, which defines the positional mapping at call time.
`returns` and `description` are documentation-only and omitted. -/
structure MethodManifest where
  name : String
  params : List MethodParam
  category : String
deriving Repr, DecidableEq

/-- The generated manifest table of src/manifest.ts: every method name with
its ordered parameter list (name and required flag) and category. -/
def manifest : List MethodManifest := [
  ⟨"runImport", [⟨"budgetName", true⟩, ⟨"func", true⟩], "transactions"⟩,
  ⟨"loadBudget", [⟨"budgetId", true⟩], "lifecycle"⟩,
  ⟨"downloadBudget", [⟨"syncId", true⟩, ⟨"options", false⟩], "lifecycle"⟩,
  ⟨"getBudgets", [], "lifecycle"⟩,
  ⟨"sync", [], "lifecycle"⟩,
  ⟨"runBankSync", [⟨"args", false⟩], "bank-sync"⟩,
  ⟨"batchBudgetUpdates", [⟨"func", true⟩], "budget"⟩,
  ⟨"aqlQuery", [⟨"query", true⟩], "query"⟩,
  ⟨"getBudgetMonths", [], "budget"⟩,
  ⟨"getBudgetMonth", [⟨"month", true⟩], "budget"⟩,
  ⟨"setBudgetAmount", [⟨"month", true⟩, ⟨"categoryId", true⟩, ⟨"value", true⟩], "budget"⟩,
  ⟨"setBudgetCarryover", [⟨"month", true⟩, ⟨"categoryId", true⟩, ⟨"flag", true⟩], "budget"⟩,
  ⟨"addTransactions", [⟨"accountId", true⟩, ⟨"transactions", true⟩, ⟨"options", false⟩], "transactions"⟩,
  ⟨"importTransactions", [⟨"accountId", true⟩, ⟨"transactions", true⟩, ⟨"opts", false⟩], "transactions"⟩,
  ⟨"getTransactions", [⟨"accountId", true⟩, ⟨"startDate", true⟩, ⟨"endDate", true⟩], "transactions"⟩,
  ⟨"updateTransaction", [⟨"id", true⟩, ⟨"fields", true⟩], "transactions"⟩,
  ⟨"deleteTransaction", [⟨"id", true⟩], "transactions"⟩,
  ⟨"getAccounts", [], "accounts"⟩,
  ⟨"createAccount", [⟨"account", true⟩, ⟨"initialBalance", false⟩], "accounts"⟩,
  ⟨"updateAccount", [⟨"id", true⟩, ⟨"fields", true⟩], "accounts"⟩,
  ⟨"closeAccount", [⟨"id", true⟩, ⟨"transferAccountId", false⟩, ⟨"transferCategoryId", false⟩], "accounts"⟩,
  ⟨"reopenAccount", [⟨"id", true⟩], "accounts"⟩,
  ⟨"deleteAccount", [⟨"id", true⟩], "accounts"⟩,
  ⟨"getAccountBalance", [⟨"id", true⟩, ⟨"cutoff", false⟩], "accounts"⟩,
  ⟨"getCategoryGroups", [], "categories"⟩,
  ⟨"createCategoryGroup", [⟨"group", true⟩], "categories"⟩,
  ⟨"updateCategoryGroup", [⟨"id", true⟩, ⟨"fields", true⟩], "categories"⟩,
  ⟨"deleteCategoryGroup", [⟨"id", true⟩, ⟨"transferCategoryId", false⟩], "categories"⟩,
  ⟨"getCategories", [], "categories"⟩,
  ⟨"createCategory", [⟨"category", true⟩], "categories"⟩,
  ⟨"updateCategory", [⟨"id", true⟩, ⟨"fields", true⟩], "categories"⟩,
  ⟨"deleteCategory", [⟨"id", true⟩, ⟨"transferCategoryId", false⟩], "categories"⟩,
  ⟨"getCommonPayees", [], "payees"⟩,
  ⟨"getPayees", [], "payees"⟩,
  ⟨"createPayee", [⟨"payee", true⟩], "payees"⟩,
  ⟨"updatePayee", [⟨"id", true⟩, ⟨"fields", true⟩], "payees"⟩,
  ⟨"deletePayee", [⟨"id", true⟩], "payees"⟩,
  ⟨"mergePayees", [⟨"targetId", true⟩, ⟨"mergeIds", true⟩], "payees"⟩,
  ⟨"getRules", [], "rules"⟩,
  ⟨"getPayeeRules", [⟨"id", true⟩], "rules"⟩,
  ⟨"createRule", [⟨"rule", true⟩], "rules"⟩,
  ⟨"updateRule", [⟨"rule", true⟩], "rules"⟩,
  ⟨"deleteRule", [⟨"id", true⟩], "rules"⟩,
  ⟨"holdBudgetForNextMonth", [⟨"month", true⟩, ⟨"amount", true⟩], "budget"⟩,
  ⟨"resetBudgetHold", [⟨"month", true⟩], "budget"⟩,
  ⟨"createSchedule", [⟨"schedule", true⟩], "schedules"⟩,
  ⟨"updateSchedule", [⟨"id", true⟩, ⟨"fields", true⟩, ⟨"resetNextDate", false⟩], "schedules"⟩,
  ⟨"deleteSchedule", [⟨"scheduleId", true⟩], "schedules"⟩,
  ⟨"getSchedules", [], "schedules"⟩,
  ⟨"getIDByName", [⟨"type", true⟩, ⟨"name", true⟩], "query"⟩,
  ⟨"getServerVersion", [], "query"⟩]

/-- src/manifest.ts `getMethodByName`: first manifest entry with the name. -/
def getMethodByName (name : String) : Option MethodManifest :=
  manifest.find? (fun m => m.name == name)

/-- src/tools/call-method.ts `NO_BUDGET_REQUIRED`: the methods callable
without a loaded budget. -/
def NO_BUDGET_REQUIRED : List String :=
  ["getBudgets", "loadBudget", "downloadBudget", "sync", "getServerVersion"]

/-- src/tools/call-method.ts `LOADS_BUDGET`: methods that load a budget as a
side effect. -/
def LOADS_BUDGET : List String := ["loadBudget", "downloadBudget"]

/-- src/tools/call-method.ts `CALLBACK_METHODS`: methods that take a
callback function and are denylisted for MCP invocation. -/
def CALLBACK_METHODS : List String := ["batchBudgetUpdates", "runImport"]

/-- JS property read `params[name]` on a parameter bag: the value of the
first binding, or undefined when the key is absent. -/
def bagGet (params : List (String × JValue)) (name : String) : JValue :=
  match params.find? (fun kv => kv.1 == name) with
  | some kv => kv.2
  | none => JValue.undef

/-- src/tools/call-method.ts `buildArgs`: positional arguments read from the
named bag in manifest-declared order; absent parameters become undefined. -/
def buildArgs (methodInfo : MethodManifest) (params : List (String × JValue)) :
    List JValue :=
  methodInfo.params.map (fun p => bagGet params p.name)

/-- The structured payload the call_api_method handler returns; one
constructor per JSON literal in src/tools/call-method.ts, carrying the
payload's `error`/`hint` strings (or the success data, or the caught
error's message with the echoed method and params). -/
inductive CallOutcome where
  | unknownMethod (error hint : String)
  | callbackNotSupported (error hint : String)
  | noBudgetLoaded (error hint : String)
  | methodNotInApi (error hint : String)
  | success (method : String) (result : JValue)
  | caught (error : String) (method : String) (params : List (String × JValue))
deriving Repr

/-- The `isError` flag of the returned MCP content. -/
def callOutcomeIsError : CallOutcome → Bool
  | CallOutcome.success _ _ => false
  | _ => true

/-- `params.budgetId ?? params.id` of the loadBudget side-effect tracking. -/
def extractLoadedBudgetId (params : List (String × JValue)) : JValue :=
  let x := bagGet params "budgetId"
  if nullish x then bagGet params "id" else x

/-- The source casts the extracted bag entry with `as string` into the
string-typed `currentBudgetId`; only string runtime values are in the
modelled domain, anything else collapses to none (null). -/
def jvalueAsString : JValue → Option String
  | JValue.str v => some v
  | _ => none

/-- src/tools/call-method.ts handler of `call_api_method`: validate the
method against the manifest, reject callback methods, initialize, enforce
the budget precondition, marshal the named bag positionally, invoke, track
the budget-loading side effect, and convert any thrown error into a caught
payload.  Returns the payload, the final session state and the API calls. -/
def callApiMethod (env : ApiEnv) (method : String) (params : List (String × JValue))
    (s : SessionState) : CallOutcome × SessionState × List ApiCall :=
  match getMethodByName method with
  | none =>
      (CallOutcome.unknownMethod ("Unknown method: " ++ method)
        "Use list_api_methods to see available methods.", s, [])
  | some methodInfo =>
    if CALLBACK_METHODS.contains method then
      (CallOutcome.callbackNotSupported
        ("Method '" ++ method ++ "' requires a callback function and cannot be called via MCP.")
        "Use the individual methods that this function would wrap instead.", s, [])
    else
      match ensureInitialized env s with
      | (Except.error e, s1, tr) => (CallOutcome.caught e method params, s1, tr)
      | (Except.ok _, s1, tr) =>
        if !(NO_BUDGET_REQUIRED.contains method) && !s1.budgetLoaded then
          (CallOutcome.noBudgetLoaded "No budget is loaded."
            "Call loadBudget(budgetId) first. Use getBudgets() to see available budgets.",
            s1, tr)
        else if !(env.hasApiFn method) then
          (CallOutcome.methodNotInApi
            ("Method '" ++ method ++ "' is defined in manifest but not available in API.")
            "This may be a version mismatch. Check @actual-app/api version.", s1, tr)
        else
          let args := buildArgs methodInfo params
          match env.invokeResult method args with
          | Except.error e =>
              (CallOutcome.caught e method params, s1, tr ++ [ApiCall.invoke method args])
          | Except.ok result =>
            let s2 :=
              if LOADS_BUDGET.contains method then
                let loadedBudgetId : Option String :=
                  if method == "loadBudget" then jvalueAsString (extractLoadedBudgetId params)
                  else none
                setBudgetLoaded true loadedBudgetId s1
              else s1
            (CallOutcome.success method result, s2, tr ++ [ApiCall.invoke method args])

/-- One named exception of src/id-resolver.ts `SPECIAL_RESOLVERS`. -/
structure SpecialResolver where
  getter : String
  idField : String
deriving Repr, DecidableEq

/-- src/id-resolver.ts `SPECIAL_RESOLVERS`: only `syncId`, resolved against
`getBudgets` by its `groupId` field. -/
def SPECIAL_RESOLVERS : List (String × SpecialResolver) :=
  [("syncId", ⟨"getBudgets", "groupId"⟩)]

/-- Hex digit of the case-insensitive UUID pattern. -/
def isHexDigit (c : Char) : Bool :=
  ('0' ≤ c && c ≤ '9') || ('a' ≤ c && c ≤ 'f') || ('A' ≤ c && c ≤ 'F')

/-- src/id-resolver.ts `isUUID`: 32 hex digits grouped 8-4-4-4-12 with
dashes at positions 8, 13, 18 and 23, case-insensitive. -/
def isUUID (value : String) : Bool :=
  let cs := value.toList
  cs.length == 36 &&
    cs.enum.all (fun ic =>
      if ic.1 == 8 || ic.1 == 13 || ic.1 == 18 || ic.1 == 23 then ic.2 == '-'
      else isHexDigit ic.2)

/-- `entity.charAt(0).toUpperCase() + entity.slice(1)`. -/
def capitalizeFirst (s : String) : String :=
  match s.toList with
  | [] => ""
  | c :: rest => String.mk (c.toUpper :: rest)

/-- src/id-resolver.ts `deriveGetter`: match `/^(.+)Id$/` (a nonempty stem
followed by "Id") and build `get` + capitalized stem + `s`. -/
def deriveGetter (paramName : String) : Option String :=
  if strEndsWith paramName "Id" && paramName.length > 2 then
    some ("get" ++ capitalizeFirst (String.mk paramName.toList.dropLast.dropLast) ++ "s")
  else none

/-- An entity returned by a listing getter (src/id-resolver.ts `Entity`):
`id` is required, `name` optional; of the open index signature only
`groupId` is kept, the single override field SPECIAL_RESOLVERS uses. -/
structure Entity where
  id : String
  name : Option String
  groupId : Option String
deriving Repr, DecidableEq

/-- The JS read `e[idField]` for the two field names that occur. -/
def entityField (e : Entity) (idField : String) : JValue :=
  if idField == "id" then JValue.str e.id
  else if idField == "groupId" then
    match e.groupId with
    | some g => JValue.str g
    | none => JValue.undef
  else JValue.undef

/-- The find predicate of resolveId:
`e.id === value || e.name === value || e[idField] === value`. -/
def entityMatches (value : String) (idField : String) (e : Entity) : Bool :=
  e.id == value || e.name == some value ||
    (match entityField e idField with
      | JValue.str w => w == value
      | _ => false)

/-- Oracle for the getter functions the resolver reflects out of the api
object: none models `typeof apiFn !== "function"`, and a present getter
either yields its entity list or throws. -/
structure ResolveEnv where
  apiFns : String → Option (Except String (List Entity))

/-- `SPECIAL_RESOLVERS[paramName]`. -/
def specialFor (paramName : String) : Option SpecialResolver :=
  (SPECIAL_RESOLVERS.find? (fun kv => kv.1 == paramName)).map Prod.snd

/-- `special?.getter ?? deriveGetter(paramName)`. -/
def effectiveGetter (paramName : String) : Option String :=
  match specialFor paramName with
  | some sp => some sp.getter
  | none => deriveGetter paramName

/-- `special?.idField ?? "id"`. -/
def effectiveIdField (paramName : String) : String :=
  match specialFor paramName with
  | some sp => sp.idField
  | none => "id"

/-- The `Available: ...` listing of resolveId's not-found error:
`entities.map(e => e.name ?? e.id).join(", ")`. -/
def entityNames (entities : List Entity) : String :=
  String.intercalate ", " (entities.map (fun e => e.name.getD e.id))

/-- src/id-resolver.ts `resolveId`: pass UUIDs through unchanged, pass the
value through when no getter function exists, otherwise list the entities
and return the idField of the first one matching by id, name or idField;
throw a not-found error enumerating the listed names when none matches. -/
def resolveId (env : ResolveEnv) (paramName value : String) :
    Except String JValue × List ApiCall :=
  if isUUID value then (Except.ok (JValue.str value), [])
  else
    match effectiveGetter paramName with
    | none => (Except.ok (JValue.str value), [])
    | some g =>
      match env.apiFns g with
      | none => (Except.ok (JValue.str value), [])
      | some (Except.error e) => (Except.error e, [ApiCall.apiGetter g])
      | some (Except.ok entities) =>
        let idField := effectiveIdField paramName
        match entities.find? (entityMatches value idField) with
        | none =>
            (Except.error (paramName ++ " \"" ++ value ++ "\" not found. Available: " ++
                entityNames entities),
              [ApiCall.apiGetter g])
        | some m => (Except.ok (entityField m idField), [ApiCall.apiGetter g])

/-- A JS object as an insertion-ordered field list. -/
abbrev JSObject : Type := List (String × JValue)

/-- A heap of JS objects; the address of an object is its index, so object
identity (aliasing, freshness) is observable. -/
abbrev Heap : Type := List JSObject

/-- JS property assignment `o[k] = v`: overwrite in place (keeping the key's
insertion position) or append a new binding. -/
def objSet (o : JSObject) (k : String) (v : JValue) : JSObject :=
  if (List.any o (fun kv => kv.1 == k)) then
    List.map (fun kv => if kv.1 == k then (k, v) else kv) o
  else List.append o [(k, v)]

/-- The for-of loop of src/id-resolver.ts `resolveParams` over the snapshot
`Object.entries(params)`: each string value under a key ending in "Id" is
resolved and written into the object at `raddr`; a thrown resolution error
propagates, keeping the mutations made so far. -/
def resolveEntriesLoop (env : ResolveEnv) (entries : List (String × JValue))
    (h : Heap) (raddr : Nat) : Except String Unit × Heap × List ApiCall :=
  match entries with
  | [] => (Except.ok (), h, [])
  | (key, value) :: rest =>
    match value with
    | JValue.str sv =>
      if strEndsWith key "Id" then
        match resolveId env key sv with
        | (Except.error e, tr) => (Except.error e, h, tr)
        | (Except.ok rv, tr) =>
          let h1 := List.set h raddr (objSet ((List.getD h raddr [])) key rv)
          match resolveEntriesLoop env rest h1 raddr with
          | (res, h2, tr2) => (res, h2, tr ++ tr2)
      else resolveEntriesLoop env rest h raddr
    | _ => resolveEntriesLoop env rest h raddr

/-- src/id-resolver.ts `resolveParams`: spread-copy the bag into a fresh
object (`const resolved = { ...params }`), then resolve every string entry
whose key ends in "Id" into the copy, and return the copy's address. -/
def resolveParams (env : ResolveEnv) (h : Heap) (addr : Nat) :
    Except String Nat × Heap × List ApiCall :=
  let params := List.getD h addr []
  let raddr := List.length h
  let h1 := h ++ [params]
  match resolveEntriesLoop env params h1 raddr with
  | (Except.error e, h2, tr) => (Except.error e, h2, tr)
  | (Except.ok _, h2, tr) => (Except.ok raddr, h2, tr)

/-- The optional name-resolver maps of the DSL formatter (`NameResolver`):
entity-id to display-name maps for payees, categories, accounts and
schedules, embedded as association lists with unique keys. -/
structure NameResolver where
  payee : List (String × String)
  category : List (String × String)
  account : List (String × String)
  schedule : List (String × String)

/-- `Map.get`: the value under the key, or undefined. -/
def mapGet (m : List (String × String)) (k : String) : Option String :=
  (m.find? (fun kv => kv.1 == k)).map Prod.snd

/-- `escapeName` of the DSL formatter: quote names containing space, colon,
comma or parentheses, escaping inner double quotes. -/
def escapeName (name : String) : String :=
  if strContainsChar name ' ' || strContainsChar name ':' || strContainsChar name ',' ||
      strContainsChar name '(' || strContainsChar name ')' then
    "\"" ++ escapeQuotes name ++ "\""
  else name

/-- JSON string escaping for `JSON.stringify` (quote and backslash; control
characters do not occur in the modelled data). -/
def jsonEscapeChar (c : Char) : String :=
  if c == '"' then "\\\""
  else if c == '\\' then "\\\\"
  else String.singleton c

/-- Escape a string for a JSON literal. -/
def jsonEscapeString (s : String) : String :=
  String.join (s.toList.map jsonEscapeChar)

/-- Is the value the JS undefined? -/
def isUndefJ : JValue → Bool
  | JValue.undef => true
  | _ => false

mutual

/-- `JSON.stringify` on the embedded values (compact form, insertion-ordered
keys; inside arrays undefined serializes as null, in objects such keys are
omitted — the sources only apply it to objects and arrays). -/
def jsonStringify : JValue → String
  | JValue.null => "null"
  | JValue.undef => "null"
  | JValue.bool b => if b then "true" else "false"
  | JValue.num n => toString n
  | JValue.str s => "\"" ++ jsonEscapeString s ++ "\""
  | JValue.arr xs => "[" ++ String.intercalate "," (jsonStringifyElems xs) ++ "]"
  | JValue.obj fs => "\x7b" ++ String.intercalate "," (jsonStringifyFields fs) ++ "\x7d"

/-- Elements of a JSON array literal. -/
def jsonStringifyElems : List JValue → List String
  | [] => []
  | x :: rest => jsonStringify x :: jsonStringifyElems rest

/-- Fields of a JSON object literal; undefined-valued keys are dropped. -/
def jsonStringifyFields : List (String × JValue) → List String
  | [] => []
  | (k, v) :: rest =>
    (if isUndefJ v then [] else ["\"" ++ jsonEscapeString k ++ "\":" ++ jsonStringify v]) ++
      jsonStringifyFields rest

end

mutual

/-- JS `String(value)` as used by template-literal interpolation. -/
def jsToString : JValue → String
  | JValue.null => "null"
  | JValue.undef => "undefined"
  | JValue.bool b => if b then "true" else "false"
  | JValue.num n => toString n
  | JValue.str s => s
  | JValue.arr xs => String.intercalate "," (jsToStringArrElems xs)
  | JValue.obj _ => "[object Object]"

/-- `Array.prototype.toString` elements: null/undefined become empty. -/
def jsToStringArrElems : List JValue → List String
  | [] => []
  | x :: rest =>
    (match x with
      | JValue.null => ""
      | JValue.undef => ""
      | y => jsToString y) :: jsToStringArrElems rest

end

/-- `'k' in value` for an object value. -/
def hasKey : JValue → String → Bool
  | JValue.obj fs, k => fs.any (fun kv => kv.1 == k)
  | _, _ => false

/-- Property read `value[k]` on an object value. -/
def objGetJ : JValue → String → JValue
  | JValue.obj fs, k => bagGet fs k
  | _, _ => JValue.undef

/-- Condition options of a rule (`RuleCondition.options`); each flag is an
optional boolean tested for truthiness. -/
structure CondOptions where
  inflow : Option Bool
  outflow : Option Bool
  month : Option Bool
  year : Option Bool
deriving Repr

/-- JS truthiness of an optional boolean. -/
def optTrue (o : Option Bool) : Bool := o == some true

/-- Action options of a rule (`RuleAction.options`). -/
structure ActionOptions where
  template : Option String
  formula : Option String
  splitIndex : Option Int
  method : Option String
deriving Repr

/-- A rule condition: field, operator and value, with optional flags. -/
structure RuleCondition where
  field : String
  op : String
  value : JValue
  options : Option CondOptions

/-- A rule action: operation kind, optional field, value, options.  An
absent `value` is the undefined JValue. -/
structure RuleAction where
  op : String
  field : Option String
  value : JValue
  options : Option ActionOptions

/-- The rule stage: `'pre' | null | 'post'`. -/
inductive Stage where
  | pre
  | post
  | nullStage
deriving Repr, DecidableEq

/-- A conditional rule record. -/
structure Rule where
  id : String
  stage : Stage
  conditionsOp : String
  conditions : List RuleCondition
  actions : List RuleAction

/-- `formatStage`: pre maps to PRE, post to POST, null to RUN. -/
def formatStage : Stage → String
  | Stage.pre => "PRE"
  | Stage.post => "POST"
  | Stage.nullStage => "RUN"

/-- `formatConditionOptions`: the comma-joined bracketed subset of
inflow/outflow/month/year flags, empty (no brackets) when no flag holds. -/
def formatConditionOptions (options : Option CondOptions) : String :=
  match options with
  | none => ""
  | some o =>
    let flags :=
      (if optTrue o.inflow then ["inflow"] else []) ++
      (if optTrue o.outflow then ["outflow"] else []) ++
      (if optTrue o.month then ["month"] else []) ++
      (if optTrue o.year then ["year"] else [])
    if flags.length > 0 then "[" ++ String.intercalate "," flags ++ "]" else ""

/-- `formatSingleValue`: null/undefined, booleans and numbers literally;
strings resolved to `@payee:`/`@cat:`/`@acct:` references when the field
and resolver allow, else quoted when they contain space, quote, comma or
parentheses; other values fall back to JSON. -/
def formatSingleValue (value : JValue) (field : String) (resolver : Option NameResolver) :
    String :=
  match value with
  | JValue.null => "null"
  | JValue.undef => "null"
  | JValue.bool b => if b then "true" else "false"
  | JValue.num n => toString n
  | JValue.str s =>
    let ref : Option String :=
      match resolver with
      | none => none
      | some r =>
        if field == "payee" then
          match mapGet r.payee s with
          | some n => if n != "" then some ("@payee:" ++ escapeName n) else none
          | none => none
        else if field == "category" then
          match mapGet r.category s with
          | some n => if n != "" then some ("@cat:" ++ escapeName n) else none
          | none => none
        else if field == "account" then
          match mapGet r.account s with
          | some n => if n != "" then some ("@acct:" ++ escapeName n) else none
          | none => none
        else none
    match ref with
    | some out => out
    | none =>
      if strContainsChar s ' ' || strContainsChar s '"' || strContainsChar s ',' ||
          strContainsChar s '(' || strContainsChar s ')' then
        "\"" ++ escapeQuotes s ++ "\""
      else s
  | JValue.arr xs => jsonStringify (JValue.arr xs)
  | JValue.obj fs => jsonStringify (JValue.obj fs)

/-- `formatValue`: arrays become a parenthesized comma-joined list of single
values; a `num1`/`num2` range object becomes `(num1,num2)`; everything else
is a single value. -/
def formatValue (value : JValue) (field : String) (_op : String)
    (resolver : Option NameResolver) : String :=
  match value with
  | JValue.arr items =>
      "(" ++
        String.intercalate "," (items.map (fun v => formatSingleValue v field resolver)) ++
        ")"
  | v =>
    if hasKey v "num1" && hasKey v "num2" then
      "(" ++ jsToString (objGetJ v "num1") ++ "," ++ jsToString (objGetJ v "num2") ++ ")"
    else formatSingleValue v field resolver

/-- `formatCondition`: `field[flags] op value`. -/
def formatCondition (cond : RuleCondition) (resolver : Option NameResolver) : String :=
  cond.field ++ formatConditionOptions cond.options ++ " " ++ cond.op ++ " " ++
    formatValue cond.value cond.field cond.op resolver

/-- `formatConditions`: `(always)` when empty, else the conditions joined by
the rule's combinator. -/
def formatConditions (conditions : List RuleCondition) (conditionsOp : String)
    (resolver : Option NameResolver) : String :=
  if conditions.length == 0 then "(always)"
  else
    String.intercalate (if conditionsOp == "and" then " AND " else " OR ")
      (conditions.map (fun c => formatCondition c resolver))

/-- JSON image of a rule action's options object (for the generic fallback
dump; fields in declaration order, absent fields omitted). -/
def actionOptionsToJValue (o : ActionOptions) : JValue :=
  JValue.obj
    ((match o.template with | some t => [("template", JValue.str t)] | none => []) ++
     (match o.formula with | some f => [("formula", JValue.str f)] | none => []) ++
     (match o.splitIndex with | some i => [("splitIndex", JValue.num i)] | none => []) ++
     (match o.method with | some m => [("method", JValue.str m)] | none => []))

/-- JSON image of a rule action (for the generic fallback dump). -/
def actionToJValue (a : RuleAction) : JValue :=
  JValue.obj
    ([("op", JValue.str a.op)] ++
     (match a.field with | some f => [("field", JValue.str f)] | none => []) ++
     (if isUndefJ a.value then [] else [("value", a.value)]) ++
     (match a.options with | some o => [("options", actionOptionsToJValue o)] | none => []))

/-- `formatActionValue`: like formatSingleValue, except plain strings are
quoted only for space, quote or comma (not parentheses). -/
def formatActionValue (value : JValue) (field : String) (resolver : Option NameResolver) :
    String :=
  match value with
  | JValue.null => "null"
  | JValue.undef => "null"
  | JValue.bool b => if b then "true" else "false"
  | JValue.num n => toString n
  | JValue.str s =>
    let ref : Option String :=
      match resolver with
      | none => none
      | some r =>
        if field == "payee" then
          match mapGet r.payee s with
          | some n => if n != "" then some ("@payee:" ++ escapeName n) else none
          | none => none
        else if field == "category" then
          match mapGet r.category s with
          | some n => if n != "" then some ("@cat:" ++ escapeName n) else none
          | none => none
        else if field == "account" then
          match mapGet r.account s with
          | some n => if n != "" then some ("@acct:" ++ escapeName n) else none
          | none => none
        else none
    match ref with
    | some out => out
    | none =>
      if strContainsChar s ' ' || strContainsChar s '"' || strContainsChar s ',' then
        "\"" ++ escapeQuotes s ++ "\""
      else s
  | JValue.arr xs => jsonStringify (JValue.arr xs)
  | JValue.obj fs => jsonStringify (JValue.obj fs)

/-- `formatSetAction`: `set(field=value)[options]`, the field falling back
to `unknown` when falsy, options listing truthy template/formula and a
present splitIndex. -/
def formatSetAction (action : RuleAction) (resolver : Option NameResolver) : String :=
  let field :=
    match action.field with
    | some f => if f != "" then f else "unknown"
    | none => "unknown"
  let value := formatActionValue action.value field resolver
  let options :=
    match action.options with
    | none => ""
    | some o =>
      let optParts :=
        (if truthyOptStr o.template then ["template:" ++ o.template.getD ""] else []) ++
        (if truthyOptStr o.formula then ["formula:" ++ o.formula.getD ""] else []) ++
        (match o.splitIndex with | some i => ["splitIndex:" ++ toString i] | none => [])
      if optParts.length > 0 then "[" ++ String.intercalate "," optParts ++ "]" else ""
  "set(" ++ field ++ "=" ++ value ++ ")" ++ options

/-- `formatSetSplitAmountAction`: `set-split-amount(value)[options]`. -/
def formatSetSplitAmountAction (action : RuleAction) : String :=
  let options :=
    match action.options with
    | none => ""
    | some o =>
      let optParts :=
        (if truthyOptStr o.method then ["method:" ++ o.method.getD ""] else []) ++
        (match o.splitIndex with | some i => ["splitIndex:" ++ toString i] | none => [])
      if optParts.length > 0 then "[" ++ String.intercalate "," optParts ++ "]" else ""
  "set-split-amount(" ++ jsToString action.value ++ ")" ++ options

/-- `formatLinkScheduleAction`: extract the schedule id from an entity-like
value (its `id` property) or stringify the value, resolve it to
`@sched:Name` when possible. -/
def formatLinkScheduleAction (action : RuleAction) (resolver : Option NameResolver) :
    String :=
  let scheduleId : JValue :=
    match action.value with
    | JValue.obj fs =>
        if List.any fs (fun kv => kv.1 == "id") then bagGet fs "id"
        else JValue.str (jsToString (JValue.obj fs))
    | v => JValue.str (jsToString v)
  let resolved : Option String :=
    match resolver, scheduleId with
    | some r, JValue.str sid =>
        (match mapGet r.schedule sid with
          | some n =>
            if n != "" then some ("link-schedule(@sched:" ++ escapeName n ++ ")") else none
          | none => none)
    | _, _ => none
  match resolved with
  | some out => out
  | none => "link-schedule(" ++ jsToString scheduleId ++ ")"

/-- `formatAction`: dispatch on the operation kind, with a generic JSON dump
for unrecognized kinds. -/
def formatAction (action : RuleAction) (resolver : Option NameResolver) : String :=
  if action.op == "set" then formatSetAction action resolver
  else if action.op == "set-split-amount" then formatSetSplitAmountAction action
  else if action.op == "link-schedule" then formatLinkScheduleAction action resolver
  else if action.op == "prepend-notes" then
    "prepend-notes(\"" ++ jsToString action.value ++ "\")"
  else if action.op == "append-notes" then
    "append-notes(\"" ++ jsToString action.value ++ "\")"
  else if action.op == "delete-transaction" then "delete-transaction"
  else action.op ++ "(" ++ jsonStringify (actionToJValue action) ++ ")"

/-- `formatActions`: `(no action)` when empty, else semicolon-joined. -/
def formatActions (actions : List RuleAction) (resolver : Option NameResolver) : String :=
  if actions.length == 0 then "(no action)"
  else String.intercalate "; " (actions.map (fun a => formatAction a resolver))

/-- `formatRule`: `id STAGE IF conditions THEN actions`. -/
def formatRule (rule : Rule) (resolver : Option NameResolver) : String :=
  rule.id ++ " " ++ formatStage rule.stage ++ " IF " ++
    formatConditions rule.conditions rule.conditionsOp resolver ++ " THEN " ++
    formatActions rule.actions resolver

/-- The fixed DSL header emitted before the rule lines. -/
def DSL_HEADER : String :=
  "# Rules DSL: [id] [stage] IF conditions THEN actions\n" ++
  "# Stages: PRE|RUN|POST  Ops: AND|OR\n" ++
  "# Refs: @payee:Name|@cat:Name|@acct:Name|@sched:Name\n" ++
  "# To update: call_api_method with getRule(id) for full JSON, then updateRule\n"

/-- `formatRulesToDsl`: the header plus a no-rules marker or one line per
rule in input order. -/
def formatRulesToDsl (rules : List Rule) (resolver : Option NameResolver) : String :=
  if rules.length == 0 then DSL_HEADER ++ "\n# (no rules)"
  else DSL_HEADER ++ "\n" ++ String.intercalate "\n" (rules.map (fun r => formatRule r resolver))

/-- The session-state invariant stated in the spec's data model: the two
budget fields mutate together, `budgetLoaded = true` means a non-null
current id and `budgetLoaded = false` means a null one. -/
def sessionInvariant (s : SessionState) : Prop :=
  (s.budgetLoaded = true → s.currentBudgetId ≠ none) ∧
  (s.budgetLoaded = false → s.currentBudgetId = none)

/-- The direction of the invariant that survives every operation:
no current id without a loaded budget. -/
def weakSessionInvariant (s : SessionState) : Prop :=
  s.budgetLoaded = false → s.currentBudgetId = none

/-- A benign external API oracle (everything succeeds, no budgets listed,
no auto-load budget configured) for concrete instantiations. -/
def envTrivial : ApiEnv :=
  ⟨some "http://localhost:5006", none, none, none, [], fun _ => [], fun _ => none,
    fun _ => none, fun _ => true, fun _ _ => Except.ok JValue.null⟩

/-- An oracle whose dynamic invocations all fail. -/
def envInvokeFail : ApiEnv :=
  ⟨some "http://localhost:5006", none, none, none, [], fun _ => [], fun _ => none,
    fun _ => none, fun _ => true, fun _ _ => Except.error "network failure"⟩

/-- An oracle with ACTUAL_BUDGET_ID configured whose auto-load fails. -/
def envAutoLoadFail : ApiEnv :=
  ⟨some "http://localhost:5006", some "b0", none, none, [], fun _ => [], fun _ => none,
    fun bid => if bid == "b0" then some "budget file not found" else none,
    fun _ => true, fun _ _ => Except.ok JValue.null⟩

/-- An oracle listing one remote-only budget that materializes locally as
`u1` after its download. -/
def envRemoteBudget : ApiEnv :=
  ⟨some "http://localhost:5006", none, none, none,
    [⟨none, "Family Budget", some "g1"⟩],
    fun g => if g == "g1" then [⟨some "u1", "Family Budget", some "g1"⟩] else [],
    fun _ => none, fun _ => none, fun _ => true, fun _ _ => Except.ok JValue.null⟩

/-- An oracle listing one local budget `b1`. -/
def envLocalBudget : ApiEnv :=
  ⟨some "http://localhost:5006", none, none, none,
    [⟨some "b1", "Personal", some "g2"⟩], fun _ => [],
    fun _ => none, fun _ => none, fun _ => true, fun _ _ => Except.ok JValue.null⟩

/-- A fresh session state (process start). -/
def sFresh : SessionState := ⟨false, false, none⟩

/-- An initialized session with no budget loaded. -/
def sInitOnly : SessionState := ⟨true, false, none⟩

/-- An initialized session with budget `b1` active. -/
def sLoadedB1 : SessionState := ⟨true, true, some "b1"⟩

/-- A resolver oracle exposing no getter functions at all. -/
def envResolveNone : ResolveEnv := ⟨fun _ => none⟩

/-- A resolver oracle where `getAccounts` lists one account named
Checking with id `u1`. -/
def envResolveAccounts : ResolveEnv :=
  ⟨fun g =>
    if g == "getAccounts" then some (Except.ok [⟨"u1", some "Checking", none⟩]) else none⟩

/-- The rule of the spec's formatter scenario. -/
def c9Rule : Rule :=
  ⟨"r1", Stage.nullStage, "and",
    [⟨"amount", "gt", JValue.num 0, some ⟨some true, none, none, none⟩⟩],
    [⟨"set", some "category", JValue.str "c1", none⟩]⟩

/-- The resolver of the spec's formatter scenario: category `c1` is named
Groceries. -/
def c9Resolver : NameResolver :=
  ⟨[], [("c1", "Groceries")], [], []⟩

/-- The mergePayees manifest entry (used to exercise argument marshaling). -/
def mMergePayees : MethodManifest :=
  ⟨"mergePayees", [⟨"targetId", true⟩, ⟨"mergeIds", true⟩], "payees"⟩

/-- A parameter bag for mergePayees. -/
def bagMergeA : List (String × JValue) :=
  [("targetId", JValue.str "p1"), ("mergeIds", JValue.arr [JValue.str "p2"])]

/-- The same bindings in the opposite key order. -/
def bagMergeB : List (String × JValue) :=
  [("mergeIds", JValue.arr [JValue.str "p2"]), ("targetId", JValue.str "p1")]

/-- A one-object heap: a parameter bag with an unresolved accountId name
and a non-id entry. -/
def heapParams : Heap :=
  [[("accountId", JValue.str "Checking"), ("note", JValue.str "weekly")]]

/-- C8: for every string matching the canonical-identifier pattern (32 hex
digits grouped 8-4-4-4-12, case-insensitive), the identifier resolver
returns the input unchanged and invokes no listing operation. -/
theorem resolveId_uuid_passthrough (env : ResolveEnv) (paramName value : String)
    (h : isUUID value = true) :
    resolveId env paramName value = (Except.ok (JValue.str value), []) := by
  simp [resolveId, h]

/-- Witness for C8 at a concrete canonical identifier. -/
theorem resolveId_uuid_passthrough_witness :
    isUUID "123e4567-e89b-12d3-a456-426614174000" = true ∧
    resolveId envResolveAccounts "accountId" "123e4567-e89b-12d3-a456-426614174000" =
      (Except.ok (JValue.str "123e4567-e89b-12d3-a456-426614174000"), []) :=
  ⟨by rfl,
    resolveId_uuid_passthrough envResolveAccounts "accountId"
      "123e4567-e89b-12d3-a456-426614174000" (by rfl)⟩

/-- C9: the formatter maps the scenario rule (stage null, one inflow-flagged
amount condition, one set-category action) with a resolver naming category
c1 Groceries to exactly the specified DSL line. -/
theorem formatRule_scenario :
    formatRule c9Rule (some c9Resolver) =
      "r1 RUN IF amount[inflow] gt 0 THEN set(category=@cat:Groceries)" := by rfl

/-- C7: for every non-identifier-shaped value whose parameter name yields a
getter that exists and lists entities, resolution returns the effective id
field of the first entity matching by id, name or that field, and fails
with an error enumerating the listed names when none matches. -/
theorem resolveId_resolves_by_listing (env : ResolveEnv) (paramName value g : String)
    (entities : List Entity)
    (hu : isUUID value = false)
    (hg : effectiveGetter paramName = some g)
    (he : env.apiFns g = some (Except.ok entities)) :
    (∀ m, entities.find? (entityMatches value (effectiveIdField paramName)) = some m →
        resolveId env paramName value =
          (Except.ok (entityField m (effectiveIdField paramName)), [ApiCall.apiGetter g])) ∧
    (entities.find? (entityMatches value (effectiveIdField paramName)) = none →
        resolveId env paramName value =
          (Except.error (paramName ++ " \"" ++ value ++ "\" not found. Available: " ++
              entityNames entities),
            [ApiCall.apiGetter g])) := by
  constructor
  · intro m hm
    simp [resolveId, hu, hg, he, hm]
  · intro hm
    simp [resolveId, hu, hg, he, hm]

/-- Witness for C7: the spec scenario, accountId = Checking against a
listing with one entity yields its id u1; a miss enumerates the names. -/
theorem resolveId_resolves_by_listing_witness :
    resolveId envResolveAccounts "accountId" "Checking" =
      (Except.ok (JValue.str "u1"), [ApiCall.apiGetter "getAccounts"]) :=
  (resolveId_resolves_by_listing envResolveAccounts "accountId" "Checking" "getAccounts"
      [⟨"u1", some "Checking", none⟩] (by rfl) (by rfl) (by rfl)).1
    ⟨"u1", some "Checking", none⟩ (by rfl)

/-- C4: the dynamic invoker rejects any method name absent from the
manifest with the unknown-method payload (with its discovery hint) without
touching session state, and rejects the denylisted callback methods with
the unsupported payload, regardless of the supplied parameters. -/
theorem callApiMethod_rejections :
    (∀ (env : ApiEnv) (s : SessionState) (params : List (String × JValue)) (m : String),
        getMethodByName m = none →
        callApiMethod env m params s =
          (CallOutcome.unknownMethod ("Unknown method: " ++ m)
            "Use list_api_methods to see available methods.", s, [])) ∧
    (∀ (env : ApiEnv) (s : SessionState) (params : List (String × JValue)) (m : String),
        CALLBACK_METHODS.contains m = true →
        callApiMethod env m params s =
          (CallOutcome.callbackNotSupported
            ("Method '" ++ m ++ "' requires a callback function and cannot be called via MCP.")
            "Use the individual methods that this function would wrap instead.", s, [])) := by
  constructor
  · intro env s params m h
    simp [callApiMethod, h]
  · intro env s params m h
    have hm : m = "batchBudgetUpdates" ∨ m = "runImport" := by
      simpa [CALLBACK_METHODS] using h
    rcases hm with rfl | rfl <;> rfl

/-- Witness for C4: a made-up name is unknown; runImport is rejected as a
callback method. -/
theorem callApiMethod_rejections_witness :
    getMethodByName "frobnicate" = none ∧
    CALLBACK_METHODS.contains "runImport" = true ∧
    callApiMethod envTrivial "frobnicate" [] sFresh =
      (CallOutcome.unknownMethod "Unknown method: frobnicate"
        "Use list_api_methods to see available methods.", sFresh, []) ∧
    callApiMethod envTrivial "runImport" [] sFresh =
      (CallOutcome.callbackNotSupported
        "Method 'runImport' requires a callback function and cannot be called via MCP."
        "Use the individual methods that this function would wrap instead.", sFresh, []) :=
  ⟨by rfl, by rfl,
    callApiMethod_rejections.1 envTrivial sFresh [] "frobnicate" (by rfl),
    callApiMethod_rejections.2 envTrivial sFresh [] "runImport" (by rfl)⟩

/-- C5: the positional argument list reads the named bag at each declared
parameter name in manifest-declared order (missing keys become undefined,
nothing checks required flags), so bags with the same bindings in any key
order marshal identically. -/
theorem buildArgs_declared_order :
    (∀ (m : MethodManifest) (params : List (String × JValue)),
        buildArgs m params = m.params.map (fun p => bagGet params p.name)) ∧
    (∀ (m : MethodManifest) (b1 b2 : List (String × JValue)),
        (∀ k, bagGet b1 k = bagGet b2 k) → buildArgs m b1 = buildArgs m b2) := by
  constructor
  · intro m params; rfl
  · intro m b1 b2 h
    unfold buildArgs
    exact List.map_congr_left (fun p _ => h p.name)

/-- Witness for C5: the two mergePayees bags with swapped key order marshal
to the same positional arguments. -/
theorem buildArgs_declared_order_witness :
    buildArgs mMergePayees bagMergeA = buildArgs mMergePayees bagMergeB :=
  buildArgs_declared_order.2 mMergePayees bagMergeA bagMergeB (fun k => by
    by_cases h1 : k = "targetId"
    · subst h1; rfl
    · by_cases h2 : k = "mergeIds"
      · subst h2; rfl
      · simp [bagMergeA, bagMergeB, bagGet, Ne.symm h1, Ne.symm h2])

/-- C6: with budget listing available, the smart loader fails with the
not-found error listing the available data-sets when nothing matches; for a
matched remote-only entry (truthy groupId, no truthy local id) with a
successful download it re-lists and either fails with the download error
when no entry with that groupId has a local id, or activates through
exactly one download and one load of the post-fetch local identifier. -/
theorem smartLoadBudget_remote_roundtrip (env : ApiEnv) (input : String)
    (hge : env.getBudgetsErr = none) :
    (env.budgets.find? (budgetMatches input) = none →
        smartLoadBudget env input =
          (Except.error ("Budget \"" ++ input ++ "\" not found. Available: " ++
              availableList env.budgets),
            [ApiCall.getBudgets])) ∧
    (∀ m g, env.budgets.find? (budgetMatches input) = some m →
        m.groupId = some g → g ≠ "" → truthyOptStr m.id = false →
        env.downloadErr g = none →
        (((env.budgetsAfterDownload g).find?
              (fun b => b.groupId == some g && truthyOptStr b.id) = none →
            smartLoadBudget env input =
              (Except.error ("Failed to download budget \"" ++ input ++ "\". Try again."),
                [ApiCall.getBudgets, ApiCall.downloadBudget g, ApiCall.getBudgets])) ∧
          (∀ d, (env.budgetsAfterDownload g).find?
              (fun b => b.groupId == some g && truthyOptStr b.id) = some d →
            env.loadErr (d.id.getD "") = none →
            smartLoadBudget env input =
              (Except.ok ⟨d.id.getD "", d.name⟩,
                [ApiCall.getBudgets, ApiCall.downloadBudget g, ApiCall.getBudgets,
                  ApiCall.loadBudget (d.id.getD "")])))) := by
  constructor
  · intro hfind
    simp [smartLoadBudget, hge, hfind]
  · intro m g hfind hg hgne hid hdl
    have htg : truthyOptStr (some g) = true := by
      simp [truthyOptStr, hgne]
    constructor
    · intro hfind2
      simp [smartLoadBudget, hge, hfind, htg, hg, hid, hdl, hfind2]
    · intro d hfind2 hld
      simp [smartLoadBudget, hge, hfind, htg, hg, hid, hdl, hfind2, hld]

/-- Witness for C6: the remote-only Family Budget downloads as g1 and
activates with post-fetch local id u1. -/
theorem smartLoadBudget_remote_roundtrip_witness :
    smartLoadBudget envRemoteBudget "Family Budget" =
      (Except.ok ⟨"u1", "Family Budget"⟩,
        [ApiCall.getBudgets, ApiCall.downloadBudget "g1", ApiCall.getBudgets,
          ApiCall.loadBudget "u1"]) :=
  (((smartLoadBudget_remote_roundtrip envRemoteBudget "Family Budget" (by rfl)).2
        ⟨none, "Family Budget", some "g1"⟩ "g1" (by rfl) (by rfl) (by decide) (by rfl)
        (by rfl)).2
    ⟨some "u1", "Family Budget", some "g1"⟩ (by rfl) (by rfl))


/-- Helper: an already-initialized session makes ensureInitialized a
complete no-op. -/
theorem ensureInitialized_noop (env : ApiEnv) (s : SessionState)
    (h : s.initialized = true) : ensureInitialized env s = (Except.ok (), s, []) := by
  simp [ensureInitialized, h]

/-- Helper: a successful ensureInitialized always leaves the initialized
flag set. -/
theorem ensureInitialized_ok_initialized (env : ApiEnv) (s si : SessionState)
    (tri : List ApiCall) (h : ensureInitialized env s = (Except.ok (), si, tri)) :
    si.initialized = true := by
  simp only [ensureInitialized] at h
  split at h
  · rename_i hi
    have h2 := congrArg (fun t => (t.2.1 : SessionState)) h
    simp only at h2
    rw [← h2]; exact hi
  · split at h
    · simp at h
    · split at h
      · simp at h
      · split at h
        · split at h
          · simp at h
          · have h2 := congrArg (fun t => (t.2.1 : SessionState)) h
            simp only at h2
            rw [← h2]
        · have h2 := congrArg (fun t => (t.2.1 : SessionState)) h
          simp only at h2
          rw [← h2]

/-- C2: session-guard activation is idempotent: after a successful
activation, repeating it with the same identifier succeeds and leaves the
observable session state unchanged (one load invocation's worth of state),
and when the identifier equals the now-current canonical identifier (or
none was given) the repeat performs no API call at all — in particular no
further load. -/
theorem ensureBudgetLoaded_idempotent (env : ApiEnv) (idOpt : Option String)
    (s s1 : SessionState) (tr1 : List ApiCall)
    (h : ensureBudgetLoaded env idOpt s = (Except.ok (), s1, tr1)) :
    (ensureBudgetLoaded env idOpt s1).1 = Except.ok () ∧
    (ensureBudgetLoaded env idOpt s1).2.1 = s1 ∧
    ((idOpt = s1.currentBudgetId ∨ truthyOptStr idOpt = false) →
      (ensureBudgetLoaded env idOpt s1).2.2 = []) := by
  simp only [ensureBudgetLoaded] at h
  split at h
  · simp at h
  · rename_i a si tri heq
    have hsi : si.initialized = true := by
      cases a
      exact ensureInitialized_ok_initialized env s si tri heq
    split at h
    · rename_i hft
      split at h
      · rename_i hbl
        have h2 := congrArg (fun t => (t.2.1 : SessionState)) h
        simp only at h2
        subst h2
        simp [ensureBudgetLoaded, ensureInitialized_noop env si hsi, hft, hbl]
      · simp at h
    · rename_i hft
      split at h
      · rename_i hcur
        have h2 := congrArg (fun t => (t.2.1 : SessionState)) h
        simp only at h2
        subst h2
        simp [ensureBudgetLoaded, ensureInitialized_noop env si hsi, hft, hcur]
      · rename_i hcur
        split at h
        · simp at h
        · rename_i r tr2 hsl
          have h2 := congrArg (fun t => (t.2.1 : SessionState)) h
          simp only at h2
          subst h2
          have hsi2 : (setBudgetLoaded true (some r.id) si).initialized = true := hsi
          by_cases hc2 : ((setBudgetLoaded true (some r.id) si).currentBudgetId ==
              some (idOpt.getD "")) = true
          · simp [ensureBudgetLoaded, ensureInitialized_noop env _ hsi2, hft, hc2]
          · refine ⟨?_, ?_, ?_⟩
            · simp [ensureBudgetLoaded, ensureInitialized_noop env _ hsi2, hft, hc2, hsl]
            · simp [ensureBudgetLoaded, ensureInitialized_noop env _ hsi2, hft, hc2, hsl]
              rfl
            · intro hmatch
              rcases hmatch with hm | hm
              · exfalso
                apply hc2
                rw [← hm]
                cases idOpt with
                | none => simp [truthyOptStr] at hft
                | some v => simp
              · rw [hm] at hft; simp at hft

/-- Counterexample to C1 as stated: a successful dynamic invocation of
downloadBudget (whose resulting local budget id is unknown to the tracking
code) sets budgetLoaded = true with currentBudgetId = null, violating the
claimed invariant from an invariant-satisfying state. -/
theorem downloadBudget_breaks_invariant :
    sessionInvariant sInitOnly ∧
    callOutcomeIsError (callApiMethod envTrivial "downloadBudget" [] sInitOnly).1 = false ∧
    (callApiMethod envTrivial "downloadBudget" [] sInitOnly).2.1 = ⟨true, true, none⟩ ∧
    ¬ sessionInvariant (callApiMethod envTrivial "downloadBudget" [] sInitOnly).2.1 := by
  refine ⟨?_, by rfl, by rfl, ?_⟩
  · exact ⟨fun hh => by simp [sInitOnly] at hh, fun _ => rfl⟩
  · intro hinv
    exact hinv.1 rfl rfl

/-- C1 (amended): initialization and session-guard activation preserve the
full two-sided invariant; dynamic invocation unconditionally preserves the
direction budgetLoaded = false implies a null id, and preserves the full
invariant whenever the method is not one of the budget-loading side-effect
methods (loadBudget/downloadBudget), whose success path may leave
budgetLoaded = true with a null currentBudgetId. -/
theorem session_invariant_amended :
    (∀ (env : ApiEnv) (s : SessionState), sessionInvariant s →
        sessionInvariant (ensureInitialized env s).2.1) ∧
    (∀ (env : ApiEnv) (idOpt : Option String) (s : SessionState), sessionInvariant s →
        sessionInvariant (ensureBudgetLoaded env idOpt s).2.1) ∧
    (∀ (env : ApiEnv) (m : String) (params : List (String × JValue)) (s : SessionState),
        weakSessionInvariant s →
        weakSessionInvariant (callApiMethod env m params s).2.1) ∧
    (∀ (env : ApiEnv) (m : String) (params : List (String × JValue)) (s : SessionState),
        sessionInvariant s → LOADS_BUDGET.contains m = false →
        sessionInvariant (callApiMethod env m params s).2.1) := by
  have init_inv : ∀ (env : ApiEnv) (s : SessionState), sessionInvariant s →
      sessionInvariant (ensureInitialized env s).2.1 := by
    intro env s h
    simp only [ensureInitialized]
    split
    · exact h
    · split
      · exact h
      · split
        · exact h
        · split
          · split
            · exact h
            · exact ⟨fun _ => by simp, fun hh => by simp at hh⟩
          · exact h
  have init_weak : ∀ (env : ApiEnv) (s : SessionState), weakSessionInvariant s →
      weakSessionInvariant (ensureInitialized env s).2.1 := by
    intro env s h
    simp only [ensureInitialized]
    split
    · exact h
    · split
      · exact h
      · split
        · exact h
        · split
          · split
            · exact h
            · intro hh; simp at hh
          · exact h
  refine ⟨init_inv, ?_, ?_, ?_⟩
  · intro env idOpt s h
    simp only [ensureBudgetLoaded]
    split
    · rename_i e si tr heq
      have hs := init_inv env s h
      rw [heq] at hs
      exact hs
    · rename_i a si tr heq
      have hsin : sessionInvariant si := by
        have hs := init_inv env s h; rw [heq] at hs; exact hs
      split
      · split
        · exact hsin
        · exact hsin
      · split
        · exact hsin
        · split
          · exact hsin
          · exact ⟨fun _ => by simp [setBudgetLoaded], fun hh => by simp [setBudgetLoaded] at hh⟩
  · intro env m params s h
    simp only [callApiMethod]
    split
    · exact h
    · split
      · exact h
      · split
        · rename_i e si tr heq
          have hs := init_weak env s h
          rw [heq] at hs
          exact hs
        · rename_i a si tr heq
          have hsiw : weakSessionInvariant si := by
            have hs := init_weak env s h; rw [heq] at hs; exact hs
          split
          · exact hsiw
          · split
            · exact hsiw
            · split
              · exact hsiw
              · split
                · intro hh; simp [setBudgetLoaded] at hh
                · exact hsiw
  · intro env m params s h hnl
    simp only [callApiMethod]
    split
    · exact h
    · split
      · exact h
      · split
        · rename_i e si tr heq
          have hs := init_inv env s h
          rw [heq] at hs
          exact hs
        · rename_i a si tr heq
          have hsin : sessionInvariant si := by
            have hs := init_inv env s h; rw [heq] at hs; exact hs
          split
          · exact hsin
          · split
            · exact hsin
            · split
              · exact hsin
              · split
                · rename_i hl
                  rw [hnl] at hl
                  simp at hl
                · exact hsin

/-- Witness for C1 (amended) at concrete environments and states. -/
theorem session_invariant_amended_witness :
    sessionInvariant (ensureBudgetLoaded envLocalBudget (some "b1") sFresh).2.1 ∧
    weakSessionInvariant (callApiMethod envTrivial "getBudgets" [] sFresh).2.1 ∧
    sessionInvariant (callApiMethod envLocalBudget "getAccounts" [] sLoadedB1).2.1 := by
  have hFresh : sessionInvariant sFresh :=
    ⟨fun hh => by simp [sFresh] at hh, fun _ => rfl⟩
  have hLoaded : sessionInvariant sLoadedB1 :=
    ⟨fun _ => by simp [sLoadedB1], fun hh => by simp [sLoadedB1] at hh⟩
  exact ⟨session_invariant_amended.2.1 envLocalBudget (some "b1") sFresh hFresh,
    session_invariant_amended.2.2.1 envTrivial "getBudgets" [] sFresh hFresh.2,
    session_invariant_amended.2.2.2 envLocalBudget "getAccounts" [] sLoadedB1 hLoaded (by rfl)⟩

/-- Counterexample to C3 as stated: when first-time initialization succeeds
but the configured ACTUAL_BUDGET_ID auto-load fails, the failed
session-guard activation leaves initialized = true behind — the session
state is not unchanged. -/
theorem failed_autoload_mutates_state :
    (ensureBudgetLoaded envAutoLoadFail (some "x") sFresh).1 =
      Except.error "budget file not found" ∧
    (ensureBudgetLoaded envAutoLoadFail (some "x") sFresh).2.1 = ⟨true, false, none⟩ ∧
    (ensureBudgetLoaded envAutoLoadFail (some "x") sFresh).2.1 ≠ sFresh := by
  refine ⟨by rfl, by rfl, by decide⟩

/-- C3 (amended): a failed session-guard activation leaves exactly the
state produced by the embedded ensureInitialized step, and a failed dynamic
invocation leaves either the entry state (pre-try rejections) or that same
post-initialization state; in particular the failing load itself never
mutates, and when the session was already initialized the state after any
failed operation is exactly the entry state. -/
theorem failed_ops_mutate_only_via_initialization :
    (∀ (env : ApiEnv) (idOpt : Option String) (s : SessionState) (e : String),
        (ensureBudgetLoaded env idOpt s).1 = Except.error e →
        (ensureBudgetLoaded env idOpt s).2.1 = (ensureInitialized env s).2.1) ∧
    (∀ (env : ApiEnv) (m : String) (params : List (String × JValue)) (s : SessionState),
        callOutcomeIsError (callApiMethod env m params s).1 = true →
        (callApiMethod env m params s).2.1 = s ∨
        (callApiMethod env m params s).2.1 = (ensureInitialized env s).2.1) ∧
    (∀ (env : ApiEnv) (s : SessionState), s.initialized = true →
        (ensureInitialized env s).2.1 = s) := by
  refine ⟨?_, ?_, ?_⟩
  · intro env idOpt s e h
    rcases heq : ensureInitialized env s with ⟨res, si, tri⟩
    simp only [ensureBudgetLoaded, heq] at h ⊢
    cases res with
    | error e2 => simp
    | ok a =>
      by_cases hft : (!truthyOptStr idOpt) = true
      · by_cases hbl : si.budgetLoaded = true
        · simp [hft, hbl] at h
        · simp [hft, hbl]
      · by_cases hcur : (si.currentBudgetId == some (idOpt.getD "")) = true
        · simp [hft, hcur] at h
        · rcases hsl : smartLoadBudget env (idOpt.getD "") with ⟨rsl, tr2⟩
          cases rsl with
          | error e2 => simp [hft, hcur, hsl]
          | ok r => simp [hft, hcur, hsl] at h
  · intro env m params s h
    rcases hmi : getMethodByName m with _ | mi
    · left; simp [callApiMethod, hmi]
    · by_cases hcb : m ∈ CALLBACK_METHODS
      · left; simp [callApiMethod, hmi, hcb]
      · rcases heq : ensureInitialized env s with ⟨res, si, tri⟩
        cases res with
        | error e2 => right; simp [callApiMethod, hmi, hcb, heq]
        | ok a =>
          right
          by_cases hnb : m ∉ NO_BUDGET_REQUIRED ∧ si.budgetLoaded = false
          · simp [callApiMethod, hmi, hcb, heq, hnb]
          · by_cases hfn : env.hasApiFn m = false
            · simp [callApiMethod, hmi, hcb, heq, hnb, hfn]
            · cases hiv : env.invokeResult m (buildArgs mi params) with
              | error e2 => simp [callApiMethod, hmi, hcb, heq, hnb, hfn, hiv]
              | ok rv =>
                exfalso
                simp [callApiMethod, hmi, hcb, heq, hnb, hfn, hiv, callOutcomeIsError] at h
  · intro env s h
    rw [ensureInitialized_noop env s h]

/-- Witness for C3 (amended): a failing smart-load, a failing invocation,
and the initialized-session no-op, at concrete inputs. -/
theorem failed_ops_mutate_only_via_initialization_witness :
    (ensureBudgetLoaded envLocalBudget (some "nope") sInitOnly).2.1 =
      (ensureInitialized envLocalBudget sInitOnly).2.1 ∧
    ((callApiMethod envInvokeFail "getBudgets" [] sInitOnly).2.1 = sInitOnly ∨
      (callApiMethod envInvokeFail "getBudgets" [] sInitOnly).2.1 =
        (ensureInitialized envInvokeFail sInitOnly).2.1) ∧
    (ensureInitialized envTrivial sLoadedB1).2.1 = sLoadedB1 := by
  refine ⟨?_, ?_, ?_⟩
  · exact failed_ops_mutate_only_via_initialization.1 envLocalBudget (some "nope") sInitOnly
      ("Budget \"nope\" not found. Available: \"Personal\" (id: b1)") (by rfl)
  · exact failed_ops_mutate_only_via_initialization.2.1 envInvokeFail "getBudgets" [] sInitOnly
      (by rfl)
  · exact failed_ops_mutate_only_via_initialization.2.2 envTrivial sLoadedB1 (by rfl)

/-- Helper: the resolution loop writes only at the address of the resolved
copy; every other heap cell is untouched, whatever the outcome. -/
theorem resolveEntriesLoop_preserves_other (env : ResolveEnv)
    (entries : List (String × JValue)) :
    ∀ (h : Heap) (raddr a : Nat), a ≠ raddr →
      ((resolveEntriesLoop env entries h raddr).2.1)[a]? = h[a]? := by
  induction entries with
  | nil => intro h raddr a hne; rfl
  | cons kv rest ih =>
    intro h raddr a hne
    rcases kv with ⟨key, value⟩
    simp only [resolveEntriesLoop]
    cases value
    case null => exact ih h raddr a hne
    case undef => exact ih h raddr a hne
    case bool b => exact ih h raddr a hne
    case num n => exact ih h raddr a hne
    case arr xs => exact ih h raddr a hne
    case obj fs => exact ih h raddr a hne
    case str sv =>
      dsimp only
      by_cases hid : strEndsWith key "Id" = true
      · rw [if_pos hid]
        rcases hr : resolveId env key sv with ⟨res, tr⟩
        cases res with
        | error e => simp
        | ok rv =>
          dsimp only
          have := ih (List.set h raddr (objSet (h.getD raddr []) key rv)) raddr a hne
          rw [this]
          exact List.getElem?_set_ne (Ne.symm hne)
      · rw [if_neg hid]
        exact ih h raddr a hne

/-- C10: batch resolution never mutates its input object: every
pre-existing heap cell (the input bag included, whatever its keys) is
unchanged, and the returned object is freshly allocated at a new address,
distinct from the input's. -/
theorem resolveParams_no_input_mutation (env : ResolveEnv) (h : Heap) (addr : Nat) :
    (∀ a, a < List.length h →
        ((resolveParams env h addr).2.1)[a]? = h[a]?) ∧
    (∀ r, (resolveParams env h addr).1 = Except.ok r → r = List.length h) ∧
    (addr < List.length h →
      ∀ r, (resolveParams env h addr).1 = Except.ok r → r ≠ addr) := by
  have key : ∀ a, a ≠ List.length h →
      ((resolveEntriesLoop env (h.getD addr []) (h ++ [h.getD addr []]) (List.length h)).2.1)[a]?
        = (h ++ [h.getD addr []])[a]? := fun a ha =>
    resolveEntriesLoop_preserves_other env (h.getD addr []) (h ++ [h.getD addr []])
      (List.length h) a ha
  refine ⟨?_, ?_, ?_⟩
  · intro a ha
    have hne : a ≠ List.length h := Nat.ne_of_lt ha
    simp only [resolveParams]
    rcases hl : resolveEntriesLoop env (h.getD addr []) (h ++ [h.getD addr []])
        (List.length h) with ⟨res, h2, tr⟩
    have hk := key a hne
    rw [hl] at hk
    simp only at hk
    cases res with
    | error e => simpa [List.getElem?_append_left ha] using hk
    | ok u => simpa [List.getElem?_append_left ha] using hk
  · intro r hr
    simp only [resolveParams] at hr
    rcases hl : resolveEntriesLoop env (h.getD addr []) (h ++ [h.getD addr []])
        (List.length h) with ⟨res, h2, tr⟩
    rw [hl] at hr
    cases res with
    | error e => simp at hr
    | ok u => simpa using hr.symm
  · intro haddr r hr
    simp only [resolveParams] at hr
    rcases hl : resolveEntriesLoop env (h.getD addr []) (h ++ [h.getD addr []])
        (List.length h) with ⟨res, h2, tr⟩
    rw [hl] at hr
    cases res with
    | error e => simp at hr
    | ok u =>
      have hrl : r = List.length h := by simpa using hr.symm
      rw [hrl]
      exact Nat.ne_of_gt haddr

/-- Witness for C10: a bag with an unresolved accountId entry is left
intact and the result address is fresh. -/
theorem resolveParams_no_input_mutation_witness :
    (0 : Nat) < List.length heapParams ∧
    ((resolveParams envResolveNone heapParams 0).2.1)[0]? = heapParams[0]? ∧
    (∀ r, (resolveParams envResolveNone heapParams 0).1 = Except.ok r → r ≠ 0) := by
  refine ⟨by decide, ?_, ?_⟩
  · exact (resolveParams_no_input_mutation envResolveNone heapParams 0).1 0 (by decide)
  · exact (resolveParams_no_input_mutation envResolveNone heapParams 0).2.2 (by decide)

/-- Witness for C2: re-activating the already-current budget b1 is a
successful no-op with an empty call trace. -/
theorem ensureBudgetLoaded_idempotent_witness :
    (ensureBudgetLoaded envLocalBudget (some "b1") sLoadedB1).1 = Except.ok () ∧
    (ensureBudgetLoaded envLocalBudget (some "b1") sLoadedB1).2.1 = sLoadedB1 ∧
    (ensureBudgetLoaded envLocalBudget (some "b1") sLoadedB1).2.2 = [] := by
  have h := ensureBudgetLoaded_idempotent envLocalBudget (some "b1") sLoadedB1 sLoadedB1 []
    (by rfl)
  exact ⟨h.1, h.2.1, h.2.2 (Or.inl (by rfl))⟩

end ActualMcp
